import Mathlib

set_option maxRecDepth 4000

/-!
Verification of the provider-configuration generator of `rpc-health-checker`
(`generate_providers.py` and `network_data.py`).

The Python dictionaries are embedded as Lean structures; Python `dict`s used
as provider maps preserve insertion order, so they are embedded as ordered
association lists.  `str.split(":", 2)` and `str.capitalize()` are embedded
character by character.
-/

/-- First occurrence split: `splitFirst sep cs = some (before, after)` splits
`cs` at the first occurrence of `sep`; `none` if `sep` does not occur. -/
def splitFirst (sep : Char) : List Char → Option (List Char × List Char)
  | [] => none
  | c :: cs =>
    if c = sep then some ([], cs)
    else
      match splitFirst sep cs with
      | none => none
      | some (a, b) => some (c :: a, b)

/-- Python `str.split(sep, maxsplit)` restricted to a single-character
separator, over character lists: split at most `maxsplit` times. -/
def pySplitChars (sep : Char) : Nat → List Char → List (List Char)
  | 0, s => [s]
  | n + 1, s =>
    match splitFirst sep s with
    | none => [s]
    | some (a, b) => a :: pySplitChars sep n b

/-- Python `provider_spec.split(":", 2)`. -/
def pySplitColon2 (s : String) : List String :=
  (pySplitChars ':' 2 s.data).map fun l => ⟨l⟩

/-- Python `str.capitalize()` (for the ASCII strings used here): first
character upper-cased, the rest lower-cased. -/
def pyCapitalize (s : String) : String :=
  match s.data with
  | [] => ""
  | c :: cs => ⟨c.toUpper :: cs.map Char.toLower⟩

/-- A record of the static `NETWORK_DATA` table: `providers` is the ordered
provider-type → URL map. -/
structure NetworkEntry where
  chain : String
  network : String
  chainId : Nat
  providers : List (String × String)
  deriving DecidableEq, Repr

/-- Membership test of a key in a provider map (Python `p_type in network_data["providers"]`). -/
def containsKey (m : List (String × String)) (k : String) : Bool :=
  match m with
  | [] => false
  | (k2, _) :: rest => k2 == k || containsKey rest k

/-- Lookup in a provider map (Python `network_data["providers"][p_type]`; the
call sites only index keys that are present, so the missing-key case is
inert). -/
def lookupUrl (m : List (String × String)) (k : String) : String :=
  match m with
  | [] => ""
  | (k2, v) :: rest => if k2 == k then v else lookupUrl rest k

def INFURA : String := "infura"
def GROVE : String := "grove"
def NODEFLEET : String := "nodefleet"
def STATUS_NETWORK : String := "status_network"
def ALCHEMY : String := "alchemy"

/-- The `NETWORK_DATA` table defined inline in `generate_providers.py` —
the table the generator iterates. -/
def NETWORK_DATA : List NetworkEntry := [
  { chain := "ethereum", network := "mainnet", chainId := 1,
    providers := [
      (INFURA, "https://mainnet.infura.io/v3/"),
      (GROVE, "https://eth.rpc.grove.city/v1/"),
      (NODEFLEET, "https://eth-mainnet.alphafleet.io/"),
      (ALCHEMY, "https://eth-mainnet.g.alchemy.com/v2/")] },
  { chain := "ethereum", network := "sepolia", chainId := 11155111,
    providers := [
      (INFURA, "https://sepolia.infura.io/v3/"),
      (GROVE, "https://eth-sepolia-testnet.rpc.grove.city/v1/"),
      (NODEFLEET, "https://eth-sepolia.alphafleet.io/"),
      (ALCHEMY, "https://eth-sepolia.g.alchemy.com/v2/")] },
  { chain := "optimism", network := "mainnet", chainId := 10,
    providers := [
      (INFURA, "https://optimism-mainnet.infura.io/v3/"),
      (GROVE, "https://optimism.rpc.grove.city/v1/"),
      (NODEFLEET, "https://optimism-mainnet.alphafleet.io/"),
      (ALCHEMY, "https://opt-mainnet.g.alchemy.com/v2/")] },
  { chain := "optimism", network := "sepolia", chainId := 11155420,
    providers := [
      (INFURA, "https://optimism-sepolia.infura.io/v3/"),
      (GROVE, "https://optimism-sepolia-testnet.rpc.grove.city/v1/"),
      (NODEFLEET, "https://optimism-sepolia.alphafleet.io/"),
      (ALCHEMY, "https://opt-sepolia.g.alchemy.com/v2/")] },
  { chain := "arbitrum", network := "mainnet", chainId := 42161,
    providers := [
      (INFURA, "https://arbitrum-mainnet.infura.io/v3/"),
      (GROVE, "https://arbitrum-one.rpc.grove.city/v1/"),
      (NODEFLEET, "https://arb-mainnet.alphafleet.io/"),
      (ALCHEMY, "https://arb-mainnet.g.alchemy.com/v2/")] },
  { chain := "arbitrum", network := "sepolia", chainId := 421614,
    providers := [
      (INFURA, "https://arbitrum-sepolia.infura.io/v3/"),
      (GROVE, "https://arbitrum-sepolia-testnet.rpc.grove.city/v1/"),
      (NODEFLEET, "https://arb-sepolia.alphafleet.io/"),
      (ALCHEMY, "https://arb-sepolia.g.alchemy.com/v2/")] },
  { chain := "base", network := "mainnet", chainId := 8453,
    providers := [
      (INFURA, "https://base-mainnet.infura.io/v3/"),
      (GROVE, "https://base.rpc.grove.city/v1/"),
      (NODEFLEET, "https://base-mainnet.alphafleet.io/"),
      (ALCHEMY, "https://base-mainnet.g.alchemy.com/v2/")] },
  { chain := "base", network := "sepolia", chainId := 84532,
    providers := [
      (INFURA, "https://base-sepolia.infura.io/v3/"),
      (GROVE, "https://base-testnet.rpc.grove.city/v1/"),
      (NODEFLEET, "https://base-sepolia.alphafleet.io/"),
      (ALCHEMY, "https://base-sepolia.g.alchemy.com/v2/")] },
  { chain := "linea", network := "mainnet", chainId := 59144,
    providers := [
      (INFURA, "https://linea-mainnet.infura.io/v3/"),
      (GROVE, "https://linea.rpc.grove.city/v1/"),
      (NODEFLEET, "https://linea-mainnet.alphafleet.io/"),
      (ALCHEMY, "https://linea-mainnet.g.alchemy.com/v2/")] },
  { chain := "linea", network := "sepolia", chainId := 59141,
    providers := [
      (INFURA, "https://linea-sepolia.infura.io/v3/"),
      (GROVE, "https://linea-testnet.rpc.grove.city/v1/"),
      (NODEFLEET, "https://linea-sepolia.alphafleet.io/"),
      (ALCHEMY, "https://linea-sepolia.g.alchemy.com/v2/")] },
  { chain := "status", network := "sepolia", chainId := 1660990954,
    providers := [
      (STATUS_NETWORK, "https://public.sepolia.rpc.status.network/")] }
]

namespace NetworkDataFile

/-- The `NETWORK_DATA` table of `network_data.py`. -/
def NETWORK_DATA : List NetworkEntry := [
  { chain := "ethereum", network := "mainnet", chainId := 1,
    providers := [
      (INFURA, "https://mainnet.infura.io/v3/"),
      (GROVE, "https://eth.rpc.grove.city/v1/"),
      (NODEFLEET, "https://eth-mainnet.alphafleet.io/"),
      (ALCHEMY, "https://eth-mainnet.g.alchemy.com/v2/")] },
  { chain := "ethereum", network := "sepolia", chainId := 11155111,
    providers := [
      (INFURA, "https://sepolia.infura.io/v3/"),
      (GROVE, "https://eth-sepolia-testnet.rpc.grove.city/v1/"),
      (NODEFLEET, "https://eth-sepolia.alphafleet.io/"),
      (ALCHEMY, "https://eth-sepolia.g.alchemy.com/v2/")] },
  { chain := "optimism", network := "mainnet", chainId := 10,
    providers := [
      (INFURA, "https://optimism-mainnet.infura.io/v3/"),
      (GROVE, "https://optimism.rpc.grove.city/v1/"),
      (NODEFLEET, "https://optimism-mainnet.alphafleet.io/"),
      (ALCHEMY, "https://opt-mainnet.g.alchemy.com/v2/")] },
  { chain := "optimism", network := "sepolia", chainId := 11155420,
    providers := [
      (INFURA, "https://optimism-sepolia.infura.io/v3/"),
      (GROVE, "https://optimism-sepolia-testnet.rpc.grove.city/v1/"),
      (NODEFLEET, "https://optimism-sepolia.alphafleet.io/"),
      (ALCHEMY, "https://opt-sepolia.g.alchemy.com/v2/")] },
  { chain := "arbitrum", network := "mainnet", chainId := 42161,
    providers := [
      (INFURA, "https://arbitrum-mainnet.infura.io/v3/"),
      (GROVE, "https://arbitrum-one.rpc.grove.city/v1/"),
      (NODEFLEET, "https://arb-mainnet.alphafleet.io/"),
      (ALCHEMY, "https://arb-mainnet.g.alchemy.com/v2/")] },
  { chain := "arbitrum", network := "sepolia", chainId := 421614,
    providers := [
      (INFURA, "https://arbitrum-sepolia.infura.io/v3/"),
      (GROVE, "https://arbitrum-sepolia-testnet.rpc.grove.city/v1/"),
      (NODEFLEET, "https://arb-sepolia.alphafleet.io/"),
      (ALCHEMY, "https://arb-sepolia.g.alchemy.com/v2/")] },
  { chain := "base", network := "mainnet", chainId := 8453,
    providers := [
      (INFURA, "https://base-mainnet.infura.io/v3/"),
      (GROVE, "https://base.rpc.grove.city/v1/"),
      (NODEFLEET, "https://base-mainnet.alphafleet.io/"),
      (ALCHEMY, "https://base-mainnet.g.alchemy.com/v2/")] },
  { chain := "base", network := "sepolia", chainId := 84532,
    providers := [
      (INFURA, "https://base-sepolia.infura.io/v3/"),
      (GROVE, "https://base-testnet.rpc.grove.city/v1/"),
      (NODEFLEET, "https://base-sepolia.alphafleet.io/"),
      (ALCHEMY, "https://base-sepolia.g.alchemy.com/v2/")] },
  { chain := "linea", network := "mainnet", chainId := 59144,
    providers := [
      (INFURA, "https://linea-mainnet.infura.io/v3/"),
      (GROVE, "https://linea.rpc.grove.city/v1/"),
      (NODEFLEET, "https://linea-mainnet.alphafleet.io/"),
      (ALCHEMY, "https://linea-mainnet.g.alchemy.com/v2/")] },
  { chain := "linea", network := "sepolia", chainId := 59141,
    providers := [
      (INFURA, "https://linea-sepolia.infura.io/v3/"),
      (ALCHEMY, "https://linea-sepolia.g.alchemy.com/v2/")] },
  { chain := "blast", network := "mainnet", chainId := 81457,
    providers := [
      (INFURA, "https://blast-mainnet.infura.io/v3/"),
      (GROVE, "https://blast.rpc.grove.city/v1/"),
      (NODEFLEET, "https://blast-mainnet.alphafleet.io/"),
      (ALCHEMY, "https://blast-mainnet.g.alchemy.com/v2/")] },
  { chain := "blast", network := "sepolia", chainId := 168587773,
    providers := [
      (INFURA, "https://blast-sepolia.infura.io/v3/"),
      (ALCHEMY, "https://blast-sepolia.g.alchemy.com/v2/")] },
  { chain := "zksync", network := "mainnet", chainId := 324,
    providers := [
      (INFURA, "https://zksync-mainnet.infura.io/v3/"),
      (GROVE, "https://zksync-era.rpc.grove.city/v1/"),
      (ALCHEMY, "https://zksync-mainnet.g.alchemy.com/v2/")] },
  { chain := "zksync", network := "sepolia", chainId := 300,
    providers := [
      (INFURA, "https://zksync-sepolia.infura.io/v3/"),
      (ALCHEMY, "https://zksync-sepolia.g.alchemy.com/v2/")] },
  { chain := "mantle", network := "mainnet", chainId := 5000,
    providers := [
      (INFURA, "https://mantle-mainnet.infura.io/v3/"),
      (GROVE, "https://mantle.rpc.grove.city/v1/"),
      (ALCHEMY, "https://mantle-mainnet.g.alchemy.com/v2/")] },
  { chain := "mantle", network := "sepolia", chainId := 5003,
    providers := [
      (INFURA, "https://mantle-sepolia.infura.io/v3/"),
      (ALCHEMY, "https://mantle-sepolia.g.alchemy.com/v2/")] },
  { chain := "abstract", network := "mainnet", chainId := 2741,
    providers := [
      (ALCHEMY, "https://abstract-mainnet.g.alchemy.com/v2/")] },
  { chain := "abstract", network := "testnet", chainId := 11124,
    providers := [
      (ALCHEMY, "https://abstract-testnet.g.alchemy.com/v2/")] },
  { chain := "unichain", network := "mainnet", chainId := 130,
    providers := [
      (INFURA, "https://unichain-mainnet.infura.io/v3/"),
      (ALCHEMY, "https://unichain-mainnet.g.alchemy.com/v2/")] },
  { chain := "unichain", network := "sepolia", chainId := 1301,
    providers := [
      (INFURA, "https://unichain-sepolia.infura.io/v3/"),
      (ALCHEMY, "https://unichain-sepolia.g.alchemy.com/v2/")] },
  { chain := "status", network := "sepolia", chainId := 1660990954,
    providers := [
      (STATUS_NETWORK, "https://public.sepolia.rpc.status.network/")] },
  { chain := "bsc", network := "mainnet", chainId := 56,
    providers := [
      (INFURA, "https://bsc-mainnet.infura.io/v3/"),
      (GROVE, "https://bsc.rpc.grove.city/v1/"),
      (NODEFLEET, "https://bsc-mainnet.alphafleet.io/"),
      (ALCHEMY, "https://bnb-mainnet.g.alchemy.com/v2/")] },
  { chain := "bsc", network := "testnet", chainId := 97,
    providers := [
      (INFURA, "https://bsc-testnet.infura.io/v3/"),
      (ALCHEMY, "https://bnb-testnet.g.alchemy.com/v2/")] },
  { chain := "polygon", network := "mainnet", chainId := 137,
    providers := [
      (INFURA, "https://polygon-mainnet.infura.io/v3/"),
      (GROVE, "https://polygon.rpc.grove.city/v1/"),
      (NODEFLEET, "https://polygon-mainnet.alphafleet.io/"),
      (ALCHEMY, "https://polygon-mainnet.g.alchemy.com/v2/")] },
  { chain := "polygon", network := "amoy", chainId := 80002,
    providers := [
      (INFURA, "https://polygon-amoy.infura.io/v3/"),
      (GROVE, "https://polygon-amoy-testnet.rpc.grove.city/v1/"),
      (ALCHEMY, "https://polygon-amoy.g.alchemy.com/v2/")] },
  { chain := "polygon-zkevm", network := "mainnet", chainId := 1101,
    providers := [
      (ALCHEMY, "https://polygonzkevm-mainnet.g.alchemy.com/v2/")] },
  { chain := "polygon-zkevm", network := "cardona", chainId := 2442,
    providers := [
      (ALCHEMY, "https://polygonzkevm-cardona.g.alchemy.com/v2/")] },
  { chain := "ink", network := "mainnet", chainId := 57073,
    providers := [
      (ALCHEMY, "https://ink-mainnet.g.alchemy.com/v2/")] },
  { chain := "ink", network := "sepolia", chainId := 763373,
    providers := [
      (ALCHEMY, "https://ink-sepolia.g.alchemy.com/v2/")] },
  { chain := "soneium", network := "mainnet", chainId := 1868,
    providers := [
      (ALCHEMY, "https://soneium-mainnet.g.alchemy.com/v2/")] },
  { chain := "soneium", network := "minato", chainId := 1946,
    providers := [
      (ALCHEMY, "https://soneium-minato.g.alchemy.com/v2/")] },
  { chain := "scroll", network := "mainnet", chainId := 534352,
    providers := [
      (INFURA, "https://scroll-mainnet.infura.io/v3/"),
      (ALCHEMY, "https://scroll-mainnet.g.alchemy.com/v2/")] },
  { chain := "scroll", network := "sepolia", chainId := 534351,
    providers := [
      (INFURA, "https://scroll-sepolia.infura.io/v3/"),
      (ALCHEMY, "https://scroll-sepolia.g.alchemy.com/v2/")] }
]

end NetworkDataFile

/-- The result of `parse_provider_spec`. -/
structure ProviderSpec where
  type : String
  auth_type : String
  auth_token : String
  auth_login : String
  auth_password : String
  deriving DecidableEq, Repr

/-- `parse_provider_spec`: parse a provider specification into provider type
and auth details.  `split(":", 2)` always returns between one and three
parts, so the empty-list arm is unreachable; it repeats the one-part arm. -/
def parse_provider_spec (provider_spec : String) : ProviderSpec :=
  match pySplitColon2 provider_spec with
  | [_] =>
    { type := provider_spec, auth_type := "no-auth",
      auth_token := "", auth_login := "", auth_password := "" }
  | [provider_type, token] =>
    { type := provider_type, auth_type := "token-auth",
      auth_token := token, auth_login := "", auth_password := "" }
  | provider_type :: login :: password :: _ =>
    { type := provider_type, auth_type := "basic-auth",
      auth_token := "", auth_login := login, auth_password := password }
  | [] =>
    { type := provider_spec, auth_type := "no-auth",
      auth_token := "", auth_login := "", auth_password := "" }

/-- A provider entry of the output document. -/
structure ProviderEntry where
  type : String
  name : String
  url : String
  authType : String
  authToken : String
  authLogin : String
  authPassword : String
  chainId : Nat
  deriving DecidableEq, Repr

/-- `create_provider_entry`: `count = none` is Python's defaulted `count=None`
(single-provider mode), `count = some c` the multi-provider call. -/
def create_provider_entry (p_type : String) (provider_spec : ProviderSpec)
    (network_data : NetworkEntry) (count : Option Nat) : ProviderEntry :=
  { type := p_type
    name :=
      match count with
      | some c => pyCapitalize p_type ++ toString c
      | none => pyCapitalize p_type
    url := lookupUrl network_data.providers p_type
    authType := provider_spec.auth_type
    authToken := provider_spec.auth_token
    authLogin := provider_spec.auth_login
    authPassword := provider_spec.auth_password
    chainId := network_data.chainId }

/-- The base fields of `create_chain_entry`. -/
structure ChainEntryBase where
  name : String
  network : String
  chainId : Nat
  deriving DecidableEq, Repr

/-- `create_chain_entry`. -/
def create_chain_entry (network_data : NetworkEntry) : ChainEntryBase :=
  { name := network_data.chain, network := network_data.network,
    chainId := network_data.chainId }

/-- A chain entry of the single-provider output: the base fields plus the
`provider` field added by `create_single_provider_entry`. -/
structure SingleChainEntry where
  name : String
  network : String
  chainId : Nat
  provider : ProviderEntry
  deriving DecidableEq, Repr

/-- A chain entry of the multi-provider output: the base fields plus the
`providers` list built by `create_multi_provider_entry`. -/
structure MultiChainEntry where
  name : String
  network : String
  chainId : Nat
  providers : List ProviderEntry
  deriving DecidableEq, Repr

/-- `create_single_provider_entry`: scan the spec list in order, return the
chain entry for the first spec whose type is in the network's provider map,
`none` when no spec matches. -/
def create_single_provider_entry (providers : List String)
    (network_data : NetworkEntry) : Option SingleChainEntry :=
  match providers with
  | [] => none
  | provider_spec_str :: rest =>
    let provider_spec := parse_provider_spec provider_spec_str
    let p_type := provider_spec.type
    if containsKey network_data.providers p_type then
      some { name := (create_chain_entry network_data).name
             network := (create_chain_entry network_data).network
             chainId := (create_chain_entry network_data).chainId
             provider := create_provider_entry p_type provider_spec network_data none }
    else
      create_single_provider_entry rest network_data

/-- The loop of `create_multi_provider_entry`: `counts` is the running
`provider_counts` defaultdict (every type starts at 0). -/
def multiProviderLoop (network_data : NetworkEntry) :
    List String → (String → Nat) → List ProviderEntry
  | [], _ => []
  | provider_spec_str :: rest, counts =>
    let provider_spec := parse_provider_spec provider_spec_str
    let p_type := provider_spec.type
    if containsKey network_data.providers p_type then
      let count := counts p_type + 1
      create_provider_entry p_type provider_spec network_data (some count) ::
        multiProviderLoop network_data rest
          (fun t => if t = p_type then count else counts t)
    else
      multiProviderLoop network_data rest counts

/-- `create_multi_provider_entry`. -/
def create_multi_provider_entry (providers : List String)
    (network_data : NetworkEntry) : MultiChainEntry :=
  { name := (create_chain_entry network_data).name
    network := (create_chain_entry network_data).network
    chainId := (create_chain_entry network_data).chainId
    providers := multiProviderLoop network_data providers (fun _ => 0) }

/-- `is_valid_chain_entry` with `single_provider=True`: the entry (when not
`None`) always carries its `provider` field, so the check is vacuous. -/
def is_valid_chain_entry_single (_chain_entry : SingleChainEntry) : Bool := true

/-- `is_valid_chain_entry` with `single_provider=False`:
`bool(chain_entry.get("providers", []))`. -/
def is_valid_chain_entry_multi (chain_entry : MultiChainEntry) : Bool :=
  !chain_entry.providers.isEmpty

/-- Output document of `generate_single_provider_config`. -/
structure SingleOutput where
  chains : List SingleChainEntry
  deriving DecidableEq, Repr

/-- Output document of `generate_multi_provider_config`. -/
structure MultiOutput where
  chains : List MultiChainEntry
  deriving DecidableEq, Repr

/-- The loop of `generate_single_provider_config` over an arbitrary suffix of
the static table. -/
def singleConfigRows (providers networks chains : List String) :
    List NetworkEntry → List SingleChainEntry
  | [] => []
  | network_data :: rest =>
    if chains.contains network_data.chain && networks.contains network_data.network then
      match create_single_provider_entry providers network_data with
      | some chain_entry =>
        if is_valid_chain_entry_single chain_entry then
          chain_entry :: singleConfigRows providers networks chains rest
        else singleConfigRows providers networks chains rest
      | none => singleConfigRows providers networks chains rest
    else singleConfigRows providers networks chains rest

/-- `generate_single_provider_config`. -/
def generate_single_provider_config (providers networks chains : List String) :
    SingleOutput :=
  { chains := singleConfigRows providers networks chains NETWORK_DATA }

/-- The loop of `generate_multi_provider_config` over an arbitrary suffix of
the static table. -/
def multiConfigRows (providers networks chains : List String) :
    List NetworkEntry → List MultiChainEntry
  | [] => []
  | network_data :: rest =>
    if chains.contains network_data.chain && networks.contains network_data.network then
      let chain_entry := create_multi_provider_entry providers network_data
      if is_valid_chain_entry_multi chain_entry then
        chain_entry :: multiConfigRows providers networks chains rest
      else multiConfigRows providers networks chains rest
    else multiConfigRows providers networks chains rest

/-- `generate_multi_provider_config`. -/
def generate_multi_provider_config (providers networks chains : List String) :
    MultiOutput :=
  { chains := multiConfigRows providers networks chains NETWORK_DATA }

/-! ## Derived notions used to state the claims -/

/-- The parsed types of the specs that match a network's provider map, in
input order. -/
def matchTypes (network_data : NetworkEntry) (specs : List String) : List String :=
  (specs.map (fun s => (parse_provider_spec s).type)).filter
    (fun t => containsKey network_data.providers t)

/-- Does some spec in the list match the network's provider map? -/
def anyMatch (providers : List String) (network_data : NetworkEntry) : Bool :=
  providers.any (fun s => containsKey network_data.providers (parse_provider_spec s).type)

/-- The (chain, network) identity of an output chain entry (single mode). -/
def singlePair (ce : SingleChainEntry) : String × String := (ce.name, ce.network)

/-- The (chain, network) identity of an output chain entry (multi mode). -/
def multiPair (ce : MultiChainEntry) : String × String := (ce.name, ce.network)

/-- The (chain, network) identity of a static table record. -/
def networkPair (nd : NetworkEntry) : String × String := (nd.chain, nd.network)

/-! ## Characterization lemmas -/

/-- The single-provider resolver is first-match search over the spec list. -/
theorem create_single_provider_entry_eq_find (providers : List String) (nd : NetworkEntry) :
    create_single_provider_entry providers nd =
      (providers.find? (fun s => containsKey nd.providers (parse_provider_spec s).type)).map
        (fun s =>
          { name := nd.chain, network := nd.network, chainId := nd.chainId,
            provider := create_provider_entry (parse_provider_spec s).type
              (parse_provider_spec s) nd none }) := by
  induction providers with
  | nil => rfl
  | cons s rest ih =>
    by_cases h : containsKey nd.providers (parse_provider_spec s).type = true
    · have hf : List.find? (fun s => containsKey nd.providers (parse_provider_spec s).type)
          (s :: rest) = some s := List.find?_cons_of_pos _ h
      rw [create_single_provider_entry, hf]
      simp [h, create_chain_entry]
    · have hf : List.find? (fun s => containsKey nd.providers (parse_provider_spec s).type)
          (s :: rest)
          = List.find? (fun s => containsKey nd.providers (parse_provider_spec s).type) rest :=
        List.find?_cons_of_neg _ (by simp [h])
      rw [create_single_provider_entry, hf, ← ih]
      simp [h]

/-- The types of the emitted multi-provider entries are exactly the matching
spec types, in input order, whatever the running counters are. -/
theorem multiProviderLoop_map_type (nd : NetworkEntry) (specs : List String) :
    ∀ counts, (multiProviderLoop nd specs counts).map (fun e => e.type)
      = matchTypes nd specs := by
  induction specs with
  | nil => intro counts; rfl
  | cons s rest ih =>
    intro counts
    have hmt : matchTypes nd (s :: rest)
        = if containsKey nd.providers (parse_provider_spec s).type
          then (parse_provider_spec s).type :: matchTypes nd rest
          else matchTypes nd rest := by
      simp [matchTypes, List.filter_cons]
    by_cases h : containsKey nd.providers (parse_provider_spec s).type = true
    · rw [hmt, if_pos h]
      simp only [multiProviderLoop]
      rw [if_pos h, List.map_cons, ih]
      rfl
    · rw [hmt, if_neg (by simp [h])]
      simp only [multiProviderLoop]
      rw [if_neg h, ih]

/-- Among the emitted multi-provider entries of a fixed type `t`, the display
names carry consecutive ordinals continuing the running counter of `t`. -/
theorem multiProviderLoop_names (nd : NetworkEntry) (specs : List String) :
    ∀ counts t,
      ((multiProviderLoop nd specs counts).filter (fun e => e.type == t)).map
          (fun e => e.name)
        = (List.range ((matchTypes nd specs).count t)).map
            (fun i => pyCapitalize t ++ toString (counts t + i + 1)) := by
  induction specs with
  | nil => intro counts t; rfl
  | cons s rest ih =>
    intro counts t
    have hmt : matchTypes nd (s :: rest)
        = if containsKey nd.providers (parse_provider_spec s).type
          then (parse_provider_spec s).type :: matchTypes nd rest
          else matchTypes nd rest := by
      simp [matchTypes, List.filter_cons]
    by_cases h : containsKey nd.providers (parse_provider_spec s).type = true
    · by_cases hpt : (parse_provider_spec s).type = t
      · subst hpt
        rw [hmt, if_pos h]
        simp only [multiProviderLoop]
        rw [if_pos h, List.filter_cons]
        rw [if_pos (show ((create_provider_entry (parse_provider_spec s).type
          (parse_provider_spec s) nd (some (counts (parse_provider_spec s).type + 1))).type
          == (parse_provider_spec s).type) = true by
            exact beq_self_eq_true (parse_provider_spec s).type)]
        rw [List.map_cons, List.count_cons, beq_self_eq_true, if_pos rfl,
          List.range_succ_eq_map, List.map_cons, List.map_map, ih]
        refine congrArg₂ _ rfl (List.map_congr_left fun i _ => ?_)
        have hc : (if (parse_provider_spec s).type = (parse_provider_spec s).type
            then counts (parse_provider_spec s).type + 1
            else counts (parse_provider_spec s).type) + i + 1
            = counts (parse_provider_spec s).type + Nat.succ i + 1 := by
          rw [if_pos rfl]; omega
        rw [Function.comp_apply, hc]
      · rw [hmt, if_pos h]
        simp only [multiProviderLoop]
        rw [if_pos h, List.filter_cons]
        rw [if_neg (show ¬ ((create_provider_entry (parse_provider_spec s).type
          (parse_provider_spec s) nd (some (counts (parse_provider_spec s).type + 1))).type
          == t) = true by
            simp [create_provider_entry, hpt])]
        rw [List.count_cons, if_neg (by simp [hpt]), Nat.add_zero, ih]
        refine List.map_congr_left fun i _ => ?_
        have hc : (if t = (parse_provider_spec s).type
            then counts (parse_provider_spec s).type + 1 else counts t) = counts t := by
          rw [if_neg (fun hh => hpt hh.symm)]
        rw [hc]
    · rw [hmt, if_neg (by simp [h])]
      simp only [multiProviderLoop]
      rw [if_neg h, ih]

/-- The single-provider resolver returns an entry iff some spec matches. -/
theorem create_single_provider_entry_isSome (providers : List String) (nd : NetworkEntry) :
    (create_single_provider_entry providers nd).isSome = anyMatch providers nd := by
  induction providers with
  | nil => rfl
  | cons s rest ih =>
    by_cases h : containsKey nd.providers (parse_provider_spec s).type = true
    · rw [create_single_provider_entry, if_pos h]
      simp [anyMatch, h]
    · rw [create_single_provider_entry, if_neg h]
      simp only [anyMatch, List.any_cons] at ih ⊢
      rw [ih, Bool.eq_false_iff.mpr h]
      rfl

/-- The multi-provider loop emits nothing iff no spec matches, whatever the
running counters are. -/
theorem multiProviderLoop_eq_nil_iff (nd : NetworkEntry) (specs : List String) :
    ∀ counts, (multiProviderLoop nd specs counts = [] ↔ anyMatch specs nd = false) := by
  induction specs with
  | nil => intro counts; simp [multiProviderLoop, anyMatch]
  | cons s rest ih =>
    intro counts
    by_cases h : containsKey nd.providers (parse_provider_spec s).type = true
    · simp only [multiProviderLoop]
      rw [if_pos h]
      simp [anyMatch, h]
    · simp only [multiProviderLoop]
      rw [if_neg h]
      rw [ih]
      simp [anyMatch, Bool.eq_false_iff.mpr h]

/-- The multi-mode validity check computes exactly "some spec matches". -/
theorem is_valid_multi_eq_anyMatch (providers : List String) (nd : NetworkEntry) :
    is_valid_chain_entry_multi (create_multi_provider_entry providers nd)
      = anyMatch providers nd := by
  unfold is_valid_chain_entry_multi create_multi_provider_entry
  cases hm : anyMatch providers nd with
  | false =>
    have hnil : multiProviderLoop nd providers (fun _ => 0) = [] :=
      (multiProviderLoop_eq_nil_iff nd providers _).mpr hm
    simp [hnil]
  | true =>
    have hnil : ¬ multiProviderLoop nd providers (fun _ => 0) = [] := by
      intro hnil
      rw [(multiProviderLoop_eq_nil_iff nd providers _).mp hnil] at hm
      exact Bool.false_ne_true hm
    simp [List.isEmpty_iff, hnil]

/-- One step of the single-mode generator loop, with the vacuous validity
check removed. -/
theorem singleConfigRows_cons (providers networks chains : List String)
    (nd : NetworkEntry) (rest : List NetworkEntry) :
    singleConfigRows providers networks chains (nd :: rest)
      = if (chains.contains nd.chain && networks.contains nd.network) = true then
          match create_single_provider_entry providers nd with
          | some ce => ce :: singleConfigRows providers networks chains rest
          | none => singleConfigRows providers networks chains rest
        else singleConfigRows providers networks chains rest := by
  rw [singleConfigRows]
  cases create_single_provider_entry providers nd <;>
    simp [is_valid_chain_entry_single]

/-- One step of the multi-mode generator loop: the validity check is the
match test. -/
theorem multiConfigRows_cons (providers networks chains : List String)
    (nd : NetworkEntry) (rest : List NetworkEntry) :
    multiConfigRows providers networks chains (nd :: rest)
      = if (chains.contains nd.chain && networks.contains nd.network) = true then
          (if anyMatch providers nd = true then
            create_multi_provider_entry providers nd ::
              multiConfigRows providers networks chains rest
          else multiConfigRows providers networks chains rest)
        else multiConfigRows providers networks chains rest := by
  simp only [multiConfigRows]
  rw [is_valid_multi_eq_anyMatch]

/-- The (chain, network) identities of the single-mode output rows are the
selected-and-matching rows of the table, in table order. -/
theorem singleConfigRows_map_pair (providers networks chains : List String) :
    ∀ L : List NetworkEntry,
      (singleConfigRows providers networks chains L).map singlePair
        = (L.filter (fun nd => (chains.contains nd.chain && networks.contains nd.network)
            && anyMatch providers nd)).map networkPair := by
  intro L
  induction L with
  | nil => rfl
  | cons nd rest ih =>
    rw [singleConfigRows_cons, List.filter_cons]
    by_cases hsel : (chains.contains nd.chain && networks.contains nd.network) = true
    · rw [if_pos hsel]
      cases hce : create_single_provider_entry providers nd with
      | none =>
        have hany : anyMatch providers nd = false := by
          have hs := create_single_provider_entry_isSome providers nd
          rw [hce] at hs
          exact hs.symm
        have hcond : ((chains.contains nd.chain && networks.contains nd.network)
            && anyMatch providers nd) = false := by
          rw [hany, Bool.and_false]
        rw [if_neg (by rw [hcond]; exact Bool.false_ne_true)]
        exact ih
      | some ce =>
        have hany : anyMatch providers nd = true := by
          have hs := create_single_provider_entry_isSome providers nd
          rw [hce] at hs
          exact hs.symm
        rw [if_pos (show ((chains.contains nd.chain && networks.contains nd.network)
          && anyMatch providers nd) = true by rw [hsel, hany]; rfl)]
        rw [List.map_cons, List.map_cons, ih]
        have hpair : singlePair ce = networkPair nd := by
          have hfind := create_single_provider_entry_eq_find providers nd
          rw [hce] at hfind
          cases hf : List.find?
              (fun s => containsKey nd.providers (parse_provider_spec s).type) providers with
          | none => rw [hf] at hfind; exact absurd hfind (by simp)
          | some s0 =>
            rw [hf] at hfind
            simp only [Option.map_some', Option.some.injEq] at hfind
            rw [hfind]
            rfl
        rw [hpair]
    · have hcond : ((chains.contains nd.chain && networks.contains nd.network)
          && anyMatch providers nd) = false := by
        rw [Bool.eq_false_iff.mpr hsel, Bool.false_and]
      rw [if_neg hsel, if_neg (by rw [hcond]; exact Bool.false_ne_true)]
      exact ih

/-- The (chain, network) identities of the multi-mode output rows are the
selected-and-matching rows of the table, in table order. -/
theorem multiConfigRows_map_pair (providers networks chains : List String) :
    ∀ L : List NetworkEntry,
      (multiConfigRows providers networks chains L).map multiPair
        = (L.filter (fun nd => (chains.contains nd.chain && networks.contains nd.network)
            && anyMatch providers nd)).map networkPair := by
  intro L
  induction L with
  | nil => rfl
  | cons nd rest ih =>
    rw [multiConfigRows_cons, List.filter_cons]
    by_cases hsel : (chains.contains nd.chain && networks.contains nd.network) = true
    · rw [if_pos hsel]
      cases hany : anyMatch providers nd with
      | false =>
        rw [if_neg (show ¬(false = true) from Bool.false_ne_true),
          if_neg (fun hc => by rw [hsel, Bool.true_and] at hc; exact Bool.false_ne_true hc)]
        exact ih
      | true =>
        rw [if_pos rfl,
          if_pos (show ((chains.contains nd.chain && networks.contains nd.network)
            && true) = true by rw [hsel]; rfl),
          List.map_cons, List.map_cons, ih]
        rfl
    · have hcond : ((chains.contains nd.chain && networks.contains nd.network)
          && anyMatch providers nd) = false := by
        rw [Bool.eq_false_iff.mpr hsel, Bool.false_and]
      rw [if_neg hsel, if_neg (by rw [hcond]; exact Bool.false_ne_true)]
      exact ih

/-- `split(":", 2)` unfolded at `maxsplit = 2`. -/
theorem pySplitChars_two (s : List Char) :
    pySplitChars ':' 2 s = match splitFirst ':' s with
      | none => [s]
      | some (a, b) =>
        a :: (match splitFirst ':' b with
          | none => [b]
          | some (c, d) => c :: [d]) := by
  rfl

/-- A list without the separator is never split. -/
theorem splitFirst_of_not_mem (sep : Char) (l : List Char) (h : sep ∉ l) :
    splitFirst sep l = none := by
  induction l with
  | nil => rfl
  | cons c cs ih =>
    rw [splitFirst]
    have hcs : ¬ (c = sep) := fun hc => h (by rw [← hc]; exact List.mem_cons_self c cs)
    rw [if_neg hcs, ih (fun hm => h (List.mem_cons_of_mem c hm))]

/-- Splitting at the first separator occurrence. -/
theorem splitFirst_append (sep : Char) (a b : List Char) (h : sep ∉ a) :
    splitFirst sep (a ++ sep :: b) = some (a, b) := by
  induction a with
  | nil => simp [splitFirst]
  | cons c cs ih =>
    rw [List.cons_append, splitFirst]
    have hcs : ¬ (c = sep) := fun hc => h (by rw [← hc]; exact List.mem_cons_self c cs)
    rw [if_neg hcs, ih (fun hm => h (List.mem_cons_of_mem c hm))]

/-- `split(":", 2)` of a separator-free list. -/
theorem pySplitChars_two_none (s : List Char) (h : splitFirst ':' s = none) :
    pySplitChars ':' 2 s = [s] := by
  rw [pySplitChars_two, h]

/-- `split(":", 2)` when exactly one split happens. -/
theorem pySplitChars_two_some_none (s a b : List Char)
    (h1 : splitFirst ':' s = some (a, b)) (h2 : splitFirst ':' b = none) :
    pySplitChars ':' 2 s = [a, b] := by
  have hstep : pySplitChars ':' 2 s
      = a :: (match splitFirst ':' b with
          | none => [b]
          | some (c, d) => [c, d]) := by
    rw [pySplitChars_two, h1]
  rw [hstep, h2]

/-- `split(":", 2)` when both splits happen. -/
theorem pySplitChars_two_some_some (s a b c d : List Char)
    (h1 : splitFirst ':' s = some (a, b)) (h2 : splitFirst ':' b = some (c, d)) :
    pySplitChars ':' 2 s = [a, c, d] := by
  have hstep : pySplitChars ':' 2 s
      = a :: (match splitFirst ':' b with
          | none => [b]
          | some (c, d) => [c, d]) := by
    rw [pySplitChars_two, h1]
  rw [hstep, h2]

/-- A string without a colon parses as a `no-auth` spec for the whole
string. -/
theorem parse_provider_spec_no_colon (s : String) (h : ':' ∉ s.data) :
    parse_provider_spec s
      = { type := s, auth_type := "no-auth",
          auth_token := "", auth_login := "", auth_password := "" } := by
  unfold parse_provider_spec pySplitColon2
  rw [pySplitChars_two_none _ (splitFirst_of_not_mem _ _ h)]
  rfl

/-- A string with exactly one colon parses as a `token-auth` spec: the text
before the colon is the type, the text after it the token. -/
theorem parse_provider_spec_one_colon (a b : String)
    (ha : ':' ∉ a.data) (hb : ':' ∉ b.data) :
    parse_provider_spec (a ++ ":" ++ b)
      = { type := a, auth_type := "token-auth",
          auth_token := b, auth_login := "", auth_password := "" } := by
  have hdata : (a ++ ":" ++ b).data = a.data ++ ':' :: b.data := by
    simp [String.data_append]
  unfold parse_provider_spec pySplitColon2
  rw [hdata, pySplitChars_two_some_none _ _ _ (splitFirst_append _ _ _ ha)
    (splitFirst_of_not_mem _ _ hb)]
  rfl

/-- A string with two or more colons parses as a `basic-auth` spec: the
second part is the login, everything after the second colon — colons
included — is the password. -/
theorem parse_provider_spec_two_colons (a b c : String)
    (ha : ':' ∉ a.data) (hb : ':' ∉ b.data) :
    parse_provider_spec (a ++ ":" ++ b ++ ":" ++ c)
      = { type := a, auth_type := "basic-auth",
          auth_token := "", auth_login := b, auth_password := c } := by
  have hdata : (a ++ ":" ++ b ++ ":" ++ c).data
      = a.data ++ ':' :: (b.data ++ ':' :: c.data) := by
    simp [String.data_append]
  unfold parse_provider_spec pySplitColon2
  rw [hdata, pySplitChars_two_some_some _ _ _ _ _ (splitFirst_append _ _ _ ha)
    (splitFirst_append _ _ _ hb)]
  rfl

/-- Every entry the multi-provider loop emits is named capitalized type
followed immediately by a positive ordinal. -/
theorem multiProviderLoop_name_shape (nd : NetworkEntry) (specs : List String) :
    ∀ counts e, e ∈ multiProviderLoop nd specs counts →
      ∃ k, 1 ≤ k ∧ e.name = pyCapitalize e.type ++ toString k := by
  induction specs with
  | nil => intro counts e he; cases he
  | cons s rest ih =>
    intro counts e he
    by_cases h : containsKey nd.providers (parse_provider_spec s).type = true
    · simp only [multiProviderLoop] at he
      rw [if_pos h] at he
      rcases List.mem_cons.mp he with he1 | he2
      · subst he1
        exact ⟨counts (parse_provider_spec s).type + 1, by omega, rfl⟩
      · exact ih _ e he2
    · simp only [multiProviderLoop] at he
      rw [if_neg h] at he
      exact ih _ e he

/-- Inert default values used only to name concrete list elements. -/
def defaultProviderEntry : ProviderEntry :=
  { type := "", name := "", url := "", authType := "", authToken := "",
    authLogin := "", authPassword := "", chainId := 0 }

def defaultSingleChainEntry : SingleChainEntry :=
  { name := "", network := "", chainId := 0, provider := defaultProviderEntry }

def defaultMultiChainEntry : MultiChainEntry :=
  { name := "", network := "", chainId := 0, providers := [] }

def defaultNetworkEntry : NetworkEntry :=
  { chain := "", network := "", chainId := 0, providers := [] }

/-- The ethereum/mainnet record of the static table. -/
def ndEthereumMainnet : NetworkEntry := NETWORK_DATA.headD defaultNetworkEntry

/-- The (chain, network) pairs of the static table are pairwise distinct. -/
theorem NETWORK_DATA_pairs_nodup : (NETWORK_DATA.map networkPair).Nodup := by
  decide

/-! ## Claims -/

/-- C1 (counterexample): on the reference table, multi-provider mode names
the first infura match on ethereum/mainnet "Infura1", not
"Infura-1 Ethereum" as the claim states — there is no hyphen and no chain
name in the generated display name. -/
theorem C1_counterexample :
    (generate_multi_provider_config ["infura:TOK1"] ["mainnet"] ["ethereum"]).chains.map
        (fun c => c.providers.map (fun p => p.name)) = [["Infura1"]]
    ∧ ("Infura1" : String) ≠ "Infura-1 Ethereum" := by
  decide

/-- C1 (amended): in multi-provider mode every emitted ProviderEntry's
display name is Capitalize(type) immediately followed by a positive ordinal
with no separator and no chain name; in single-provider mode the name is
exactly Capitalize(type). -/
theorem C1_display_name_format (providers : List String) (nd : NetworkEntry) :
    (∀ e ∈ (create_multi_provider_entry providers nd).providers,
      ∃ k, 1 ≤ k ∧ e.name = pyCapitalize e.type ++ toString k)
    ∧ (∀ ce, create_single_provider_entry providers nd = some ce →
        ce.provider.name = pyCapitalize ce.provider.type) := by
  constructor
  · intro e he
    exact multiProviderLoop_name_shape nd providers _ e he
  · intro ce hce
    have hfind := create_single_provider_entry_eq_find providers nd
    rw [hce] at hfind
    cases hf : List.find?
        (fun s => containsKey nd.providers (parse_provider_spec s).type) providers with
    | none => rw [hf] at hfind; exact absurd hfind (by simp)
    | some s0 =>
      rw [hf] at hfind
      simp only [Option.map_some', Option.some.injEq] at hfind
      rw [hfind]
      rfl

/-- C1 witness: the amended statement evaluated on a concrete run. -/
theorem C1_display_name_format_witness :
    (∃ k, 1 ≤ k ∧
      ((create_multi_provider_entry ["infura:TOK1"] ndEthereumMainnet).providers.headD
          defaultProviderEntry).name
        = pyCapitalize ((create_multi_provider_entry ["infura:TOK1"]
            ndEthereumMainnet).providers.headD defaultProviderEntry).type ++ toString k)
    ∧ ((create_single_provider_entry ["infura:TOK1"] ndEthereumMainnet).getD
          defaultSingleChainEntry).provider.name
        = pyCapitalize ((create_single_provider_entry ["infura:TOK1"]
            ndEthereumMainnet).getD defaultSingleChainEntry).provider.type :=
  ⟨(C1_display_name_format ["infura:TOK1"] ndEthereumMainnet).1 _ (by decide),
   (C1_display_name_format ["infura:TOK1"] ndEthereumMainnet).2 _ (by decide)⟩

/-- C2: for every network record and spec list, the single-provider resolver
is first-match search in caller order (its result is the mapped `find?` of
the first spec whose parsed type is a key of the provider map, and it is
`none` exactly when no spec matches); on ethereum/mainnet with
["infura:TOK1", "grove:TOK2"] the chosen provider is named "Infura". -/
theorem C2_single_resolver_first_match :
    (∀ (providers : List String) (nd : NetworkEntry),
      create_single_provider_entry providers nd
        = (providers.find? (fun s => containsKey nd.providers (parse_provider_spec s).type)).map
            (fun s => { name := nd.chain, network := nd.network, chainId := nd.chainId,
                        provider := create_provider_entry (parse_provider_spec s).type
                          (parse_provider_spec s) nd none }))
    ∧ (∀ (providers : List String) (nd : NetworkEntry),
        (create_single_provider_entry providers nd).isSome = anyMatch providers nd)
    ∧ ((generate_single_provider_config ["infura:TOK1", "grove:TOK2"] ["mainnet"]
          ["ethereum"]).chains.map (fun c => c.provider.name) = ["Infura"]) :=
  ⟨create_single_provider_entry_eq_find, create_single_provider_entry_isSome, by decide⟩

/-- C3: the multi-provider resolver emits one entry per matching spec, in
input order (the emitted types are exactly the matching spec types), and
within each provider type the display-name ordinals are 1, 2, 3, … in order
of occurrence — a separate counter per type starting at 1. -/
theorem C3_multi_resolver_all_matches_with_ordinals (providers : List String)
    (nd : NetworkEntry) :
    ((create_multi_provider_entry providers nd).providers.map (fun e => e.type)
      = matchTypes nd providers)
    ∧ (∀ t, ((create_multi_provider_entry providers nd).providers.filter
          (fun e => e.type == t)).map (fun e => e.name)
        = (List.range ((matchTypes nd providers).count t)).map
            (fun i => pyCapitalize t ++ toString (i + 1))) := by
  constructor
  · exact multiProviderLoop_map_type nd providers _
  · intro t
    have h := multiProviderLoop_names nd providers (fun _ => 0) t
    simpa using h

/-- C4: the provider-spec parser splits on ':' into at most 3 parts — no
colon gives no-auth for the whole string, one colon gives token-auth with
the text after the colon, two or more colons give basic-auth with the
second part as login and everything after the second colon (colons
included) as password; "grove:alice:s3cr3t:more" parses to login "alice"
and password "s3cr3t:more". -/
theorem C4_parser_split_behavior :
    (∀ s : String, ':' ∉ s.data →
        parse_provider_spec s = { type := s
                                  auth_type := "no-auth"
                                  auth_token := ""
                                  auth_login := ""
                                  auth_password := "" })
    ∧ (∀ a b : String, ':' ∉ a.data → ':' ∉ b.data →
        parse_provider_spec (a ++ ":" ++ b) = { type := a
                                                auth_type := "token-auth"
                                                auth_token := b
                                                auth_login := ""
                                                auth_password := "" })
    ∧ (∀ a b c : String, ':' ∉ a.data → ':' ∉ b.data →
        parse_provider_spec (a ++ ":" ++ b ++ ":" ++ c) = { type := a
                                                            auth_type := "basic-auth"
                                                            auth_token := ""
                                                            auth_login := b
                                                            auth_password := c })
    ∧ ((parse_provider_spec "grove:alice:s3cr3t:more").auth_login = "alice"
        ∧ (parse_provider_spec "grove:alice:s3cr3t:more").auth_password = "s3cr3t:more") :=
  ⟨parse_provider_spec_no_colon, parse_provider_spec_one_colon,
    parse_provider_spec_two_colons, by decide⟩

/-- C4 witness: the three split regimes evaluated on concrete strings. -/
theorem C4_parser_split_behavior_witness :
    parse_provider_spec "infura" = { type := "infura"
                                     auth_type := "no-auth"
                                     auth_token := ""
                                     auth_login := ""
                                     auth_password := "" }
    ∧ parse_provider_spec ("grove" ++ ":" ++ "tok") = { type := "grove"
                                                        auth_type := "token-auth"
                                                        auth_token := "tok"
                                                        auth_login := ""
                                                        auth_password := "" }
    ∧ parse_provider_spec ("grove" ++ ":" ++ "alice" ++ ":" ++ "s3cr3t:more")
      = { type := "grove"
          auth_type := "basic-auth"
          auth_token := ""
          auth_login := "alice"
          auth_password := "s3cr3t:more" } :=
  ⟨C4_parser_split_behavior.1 "infura" (by decide),
   C4_parser_split_behavior.2.1 "grove" "tok" (by decide) (by decide),
   C4_parser_split_behavior.2.2.1 "grove" "alice" "s3cr3t:more" (by decide) (by decide)⟩

/-- C5: in both modes, every output chain entry's chain and network are in
the requested sets (a filtered-out NetworkEntry contributes nothing), and
the output (chain, network) sequence is a sublist of the static table's, so
relative table order is preserved. -/
theorem C5_chain_network_filter_and_order (providers networks chains : List String) :
    (∀ ce ∈ (generate_single_provider_config providers networks chains).chains,
        chains.contains ce.name = true ∧ networks.contains ce.network = true)
    ∧ (∀ ce ∈ (generate_multi_provider_config providers networks chains).chains,
        chains.contains ce.name = true ∧ networks.contains ce.network = true)
    ∧ List.Sublist
        ((generate_single_provider_config providers networks chains).chains.map singlePair)
        (NETWORK_DATA.map networkPair)
    ∧ List.Sublist
        ((generate_multi_provider_config providers networks chains).chains.map multiPair)
        (NETWORK_DATA.map networkPair) := by
  refine ⟨?_, ?_, ?_, ?_⟩
  · intro ce hce
    have h1 : singlePair ce
        ∈ (singleConfigRows providers networks chains NETWORK_DATA).map singlePair :=
      List.mem_map_of_mem _ hce
    rw [singleConfigRows_map_pair] at h1
    obtain ⟨nd, hnd, hpair⟩ := List.mem_map.mp h1
    have hcond := (List.mem_filter.mp hnd).2
    rw [Bool.and_eq_true, Bool.and_eq_true] at hcond
    simp only [networkPair, singlePair, Prod.mk.injEq] at hpair
    rw [← hpair.1, ← hpair.2]
    exact ⟨hcond.1.1, hcond.1.2⟩
  · intro ce hce
    have h1 : multiPair ce
        ∈ (multiConfigRows providers networks chains NETWORK_DATA).map multiPair :=
      List.mem_map_of_mem _ hce
    rw [multiConfigRows_map_pair] at h1
    obtain ⟨nd, hnd, hpair⟩ := List.mem_map.mp h1
    have hcond := (List.mem_filter.mp hnd).2
    rw [Bool.and_eq_true, Bool.and_eq_true] at hcond
    simp only [networkPair, multiPair, Prod.mk.injEq] at hpair
    rw [← hpair.1, ← hpair.2]
    exact ⟨hcond.1.1, hcond.1.2⟩
  · show List.Sublist
      ((singleConfigRows providers networks chains NETWORK_DATA).map singlePair)
      (NETWORK_DATA.map networkPair)
    rw [singleConfigRows_map_pair]
    exact (List.filter_sublist _).map _
  · show List.Sublist
      ((multiConfigRows providers networks chains NETWORK_DATA).map multiPair)
      (NETWORK_DATA.map networkPair)
    rw [multiConfigRows_map_pair]
    exact (List.filter_sublist _).map _

/-- C5 witness: the membership parts evaluated on a concrete run. -/
theorem C5_chain_network_filter_and_order_witness :
    ((["ethereum"] : List String).contains
        ((generate_single_provider_config ["infura:TOK1"] ["mainnet"] ["ethereum"]).chains.headD
          defaultSingleChainEntry).name = true
      ∧ (["mainnet"] : List String).contains
        ((generate_single_provider_config ["infura:TOK1"] ["mainnet"] ["ethereum"]).chains.headD
          defaultSingleChainEntry).network = true)
    ∧ ((["ethereum"] : List String).contains
        ((generate_multi_provider_config ["infura:TOK1"] ["mainnet"] ["ethereum"]).chains.headD
          defaultMultiChainEntry).name = true
      ∧ (["mainnet"] : List String).contains
        ((generate_multi_provider_config ["infura:TOK1"] ["mainnet"] ["ethereum"]).chains.headD
          defaultMultiChainEntry).network = true) :=
  ⟨(C5_chain_network_filter_and_order ["infura:TOK1"] ["mainnet"] ["ethereum"]).1 _ (by decide),
   (C5_chain_network_filter_and_order ["infura:TOK1"] ["mainnet"] ["ethereum"]).2.1 _ (by decide)⟩

/-- C6: for a table record selected by the chain and network filters, a
chain entry for its (chain, network) pair appears in the output — in either
mode — iff at least one supplied spec's parsed type is a key of its
provider map; when no spec matches, the pair is simply absent while the
generator still returns a document. -/
theorem C6_entry_iff_some_spec_matches (providers networks chains : List String)
    (nd : NetworkEntry) (hmem : nd ∈ NETWORK_DATA)
    (hchain : chains.contains nd.chain = true)
    (hnet : networks.contains nd.network = true) :
    (networkPair nd
        ∈ (generate_single_provider_config providers networks chains).chains.map singlePair
      ↔ anyMatch providers nd = true)
    ∧ (networkPair nd
        ∈ (generate_multi_provider_config providers networks chains).chains.map multiPair
      ↔ anyMatch providers nd = true) := by
  have hsingle : (generate_single_provider_config providers networks chains).chains.map singlePair
      = (NETWORK_DATA.filter (fun nd => (chains.contains nd.chain
          && networks.contains nd.network) && anyMatch providers nd)).map networkPair :=
    singleConfigRows_map_pair providers networks chains NETWORK_DATA
  have hmulti : (generate_multi_provider_config providers networks chains).chains.map multiPair
      = (NETWORK_DATA.filter (fun nd => (chains.contains nd.chain
          && networks.contains nd.network) && anyMatch providers nd)).map networkPair :=
    multiConfigRows_map_pair providers networks chains NETWORK_DATA
  have hfwd : networkPair nd ∈ (NETWORK_DATA.filter (fun nd => (chains.contains nd.chain
      && networks.contains nd.network) && anyMatch providers nd)).map networkPair →
      anyMatch providers nd = true := by
    intro h
    obtain ⟨nd2, hnd2, hpair⟩ := List.mem_map.mp h
    obtain ⟨hmem2, hcond2⟩ := List.mem_filter.mp hnd2
    have heq : nd2 = nd :=
      List.inj_on_of_nodup_map NETWORK_DATA_pairs_nodup hmem2 hmem hpair
    subst heq
    rw [Bool.and_eq_true] at hcond2
    exact hcond2.2
  have hbwd : anyMatch providers nd = true →
      networkPair nd ∈ (NETWORK_DATA.filter (fun nd => (chains.contains nd.chain
        && networks.contains nd.network) && anyMatch providers nd)).map networkPair := by
    intro hm
    refine List.mem_map_of_mem _ (List.mem_filter.mpr ⟨hmem, ?_⟩)
    rw [hchain, hnet, hm]
    rfl
  constructor
  · rw [hsingle]
    exact ⟨hfwd, hbwd⟩
  · rw [hmulti]
    exact ⟨hfwd, hbwd⟩

/-- C6 witness: the iff evaluated on a concrete record and run. -/
theorem C6_entry_iff_some_spec_matches_witness :
    (networkPair ndEthereumMainnet
        ∈ (generate_single_provider_config ["infura:TOK1"] ["mainnet"]
            ["ethereum"]).chains.map singlePair
      ↔ anyMatch ["infura:TOK1"] ndEthereumMainnet = true)
    ∧ (networkPair ndEthereumMainnet
        ∈ (generate_multi_provider_config ["infura:TOK1"] ["mainnet"]
            ["ethereum"]).chains.map multiPair
      ↔ anyMatch ["infura:TOK1"] ndEthereumMainnet = true) :=
  C6_entry_iff_some_spec_matches ["infura:TOK1"] ["mainnet"] ["ethereum"]
    ndEthereumMainnet (by decide) (by decide) (by decide)

/-- C7 (counterexample): the empty provider spec is not rejected — it
parses successfully as a no-auth spec with empty type, and a run supplying
only the empty spec completes normally with an empty chains list instead of
terminating with an error. -/
theorem C7_counterexample :
    parse_provider_spec "" = { type := ""
                               auth_type := "no-auth"
                               auth_token := ""
                               auth_login := ""
                               auth_password := "" }
    ∧ generate_single_provider_config [""] ["mainnet"] ["ethereum"] = { chains := [] }
    ∧ generate_multi_provider_config [""] ["mainnet"] ["ethereum"] = { chains := [] } := by
  decide

/-- C7 (amended): every provider-spec string parses successfully — there is
no malformed-spec error path.  The empty string parses as a no-auth spec
with empty type, which is a key of no provider map in the table, so a run
supplying only the empty spec succeeds and produces an empty chains list in
either mode. -/
theorem C7_empty_spec_is_accepted :
    (parse_provider_spec "" = { type := ""
                                auth_type := "no-auth"
                                auth_token := ""
                                auth_login := ""
                                auth_password := "" })
    ∧ (∀ nd ∈ NETWORK_DATA, containsKey nd.providers "" = false)
    ∧ (∀ networks chains : List String,
        generate_single_provider_config [""] networks chains = { chains := [] }
        ∧ generate_multi_provider_config [""] networks chains = { chains := [] }) := by
  refine ⟨by decide, by decide, ?_⟩
  intro networks chains
  have hnone : ∀ nd ∈ NETWORK_DATA, anyMatch [""] nd = false := by decide
  have hfil : NETWORK_DATA.filter (fun nd => (chains.contains nd.chain
      && networks.contains nd.network) && anyMatch [""] nd) = [] := by
    rw [List.filter_eq_nil_iff]
    intro nd hnd
    rw [hnone nd hnd, Bool.and_false]
    exact Bool.false_ne_true
  constructor
  · have h := singleConfigRows_map_pair [""] networks chains NETWORK_DATA
    rw [hfil, List.map_nil] at h
    have hrows : singleConfigRows [""] networks chains NETWORK_DATA = [] :=
      List.map_eq_nil_iff.mp h
    exact congrArg SingleOutput.mk hrows
  · have h := multiConfigRows_map_pair [""] networks chains NETWORK_DATA
    rw [hfil, List.map_nil] at h
    have hrows : multiConfigRows [""] networks chains NETWORK_DATA = [] :=
      List.map_eq_nil_iff.mp h
    exact congrArg MultiOutput.mk hrows

/-- C7 witness: the amended statement evaluated on concrete inputs. -/
theorem C7_empty_spec_is_accepted_witness :
    containsKey ndEthereumMainnet.providers "" = false
    ∧ (generate_single_provider_config [""] ["sepolia"] ["status"] = { chains := [] }
        ∧ generate_multi_provider_config [""] ["sepolia"] ["status"] = { chains := [] }) :=
  ⟨C7_empty_spec_is_accepted.2.1 ndEthereumMainnet (by decide),
   C7_empty_spec_is_accepted.2.2 ["sepolia"] ["status"]⟩

/-- C8 (counterexample): a bare-type spec such as "infura" parses to
`no-auth` with none of authToken/authLogin/authPassword populated, so it is
not the case that every parsed ProviderSpec has exactly one of {authToken}
or {authLogin, authPassword} non-empty. -/
theorem C8_counterexample :
    (parse_provider_spec "infura").auth_type = "no-auth"
    ∧ (parse_provider_spec "infura").auth_token = ""
    ∧ (parse_provider_spec "infura").auth_login = ""
    ∧ (parse_provider_spec "infura").auth_password = "" := by
  decide

/-- C8 (amended): the auth fields not selected by the authType are always
empty strings — no-auth populates none of the three fields, token-auth
leaves authLogin and authPassword empty, basic-auth leaves authToken empty —
so at most one of {authToken} or {authLogin, authPassword} is ever
populated, but the selected fields may themselves be empty. -/
theorem C8_auth_field_population (s : String) :
    ((parse_provider_spec s).auth_type = "no-auth"
      ∧ (parse_provider_spec s).auth_token = ""
      ∧ (parse_provider_spec s).auth_login = ""
      ∧ (parse_provider_spec s).auth_password = "")
    ∨ ((parse_provider_spec s).auth_type = "token-auth"
      ∧ (parse_provider_spec s).auth_login = ""
      ∧ (parse_provider_spec s).auth_password = "")
    ∨ ((parse_provider_spec s).auth_type = "basic-auth"
      ∧ (parse_provider_spec s).auth_token = "") := by
  unfold parse_provider_spec
  cases hp : pySplitColon2 s with
  | nil => exact Or.inl ⟨rfl, rfl, rfl, rfl⟩
  | cons a rest =>
    cases rest with
    | nil => exact Or.inl ⟨rfl, rfl, rfl, rfl⟩
    | cons b rest2 =>
      cases rest2 with
      | nil => exact Or.inr (Or.inl ⟨rfl, rfl, rfl⟩)
      | cons c rest3 => exact Or.inr (Or.inr ⟨rfl, rfl⟩)

/-- C9: the generator is deterministic — equal spec lists, network sets and
chain sets give equal output documents in each mode — and the output order
is fully determined by the static table order and the input spec order (the
output (chain, network) sequence is the filtered static table, in table
order). -/
theorem C9_deterministic_generation (ps₁ ps₂ ns₁ ns₂ cs₁ cs₂ : List String)
    (hp : ps₁ = ps₂) (hn : ns₁ = ns₂) (hc : cs₁ = cs₂) :
    generate_single_provider_config ps₁ ns₁ cs₁
        = generate_single_provider_config ps₂ ns₂ cs₂
    ∧ generate_multi_provider_config ps₁ ns₁ cs₁
        = generate_multi_provider_config ps₂ ns₂ cs₂
    ∧ (generate_single_provider_config ps₁ ns₁ cs₁).chains.map singlePair
        = (NETWORK_DATA.filter (fun nd => (cs₁.contains nd.chain
            && ns₁.contains nd.network) && anyMatch ps₁ nd)).map networkPair
    ∧ (generate_multi_provider_config ps₁ ns₁ cs₁).chains.map multiPair
        = (NETWORK_DATA.filter (fun nd => (cs₁.contains nd.chain
            && ns₁.contains nd.network) && anyMatch ps₁ nd)).map networkPair := by
  subst hp
  subst hn
  subst hc
  exact ⟨rfl, rfl, singleConfigRows_map_pair ps₁ ns₁ cs₁ NETWORK_DATA,
    multiConfigRows_map_pair ps₁ ns₁ cs₁ NETWORK_DATA⟩

/-- C9 witness: determinism and order-determination at a concrete run. -/
theorem C9_deterministic_generation_witness :
    generate_single_provider_config ["grove:TOK"] ["mainnet"] ["base"]
        = generate_single_provider_config ["grove:TOK"] ["mainnet"] ["base"]
    ∧ generate_multi_provider_config ["grove:TOK"] ["mainnet"] ["base"]
        = generate_multi_provider_config ["grove:TOK"] ["mainnet"] ["base"]
    ∧ (generate_single_provider_config ["grove:TOK"] ["mainnet"] ["base"]).chains.map singlePair
        = (NETWORK_DATA.filter (fun nd => ((["base"] : List String).contains nd.chain
            && (["mainnet"] : List String).contains nd.network)
            && anyMatch ["grove:TOK"] nd)).map networkPair
    ∧ (generate_multi_provider_config ["grove:TOK"] ["mainnet"] ["base"]).chains.map multiPair
        = (NETWORK_DATA.filter (fun nd => ((["base"] : List String).contains nd.chain
            && (["mainnet"] : List String).contains nd.network)
            && anyMatch ["grove:TOK"] nd)).map networkPair :=
  C9_deterministic_generation ["grove:TOK"] ["grove:TOK"] ["mainnet"] ["mainnet"]
    ["base"] ["base"] rfl rfl rfl

/-- C10 (counterexample): the table defined inline in generate_providers.py
is not equal to the table in network_data.py. -/
theorem C10_counterexample :
    NETWORK_DATA ≠ NetworkDataFile.NETWORK_DATA := by
  decide

/-- C10 (amended): the two tables agree entry-for-entry only on their first
nine records; the inline table has 11 records to network_data.py's 33, the
two linea/sepolia records (index 9 of each) carry different provider maps,
the inline table's last record (status/sepolia) equals network_data.py's
record at index 20, and the tables as a whole are not equal. -/
theorem C10_tables_relation :
    NETWORK_DATA.take 9 = NetworkDataFile.NETWORK_DATA.take 9
    ∧ NETWORK_DATA.length = 11
    ∧ NetworkDataFile.NETWORK_DATA.length = 33
    ∧ (NETWORK_DATA.getD 9 defaultNetworkEntry).providers
        ≠ (NetworkDataFile.NETWORK_DATA.getD 9 defaultNetworkEntry).providers
    ∧ NETWORK_DATA.getD 10 defaultNetworkEntry
        = NetworkDataFile.NETWORK_DATA.getD 20 defaultNetworkEntry
    ∧ NETWORK_DATA ≠ NetworkDataFile.NETWORK_DATA := by
  exact ⟨by decide, by decide, by decide, by decide, by decide, by decide⟩
